import Mathlib

/-!
Shallow embedding of the cproto client connection (`connection.go` fragment):
constants, sequence arithmetic, the slot table, the deadline ticker body,
the reader's frame validation and routing, the one-shot failure transition,
and the synchronous RPC call path.  Machine `uint32` arithmetic is modelled
on `Nat` with explicit `% 2^32` where the Go code may wrap.
-/

namespace CProto

/-- The modulus 2^32 of Go's `uint32`. -/
def uint32Mod : Nat := 4294967296

/-- Pipeline depth `queueSize = 40`: the slot-table size. -/
def queueSize : Nat := 40

/-- Sequence-space bound `maxSeqNum = queueSize * 10000000`: sequences live in
`[0, maxSeqNum)`; `maxSeqNum` itself is the idle sentinel stored in a
released slot. -/
def maxSeqNum : Nat := queueSize * 10000000

/-- Header magic constant `cprotoMagic = 0xEEDD1132`. -/
def cprotoMagic : Nat := 0xEEDD1132

/-- Current protocol version `cprotoVersion = 0x102`. -/
def cprotoVersion : Nat := 0x102

/-- Minimum compatible version `cprotoMinCompatVersion = 0x101`. -/
def cprotoMinCompatVersion : Nat := 0x101

/-- Tick period `deadlineCheckPeriodSec = 1` second. -/
def deadlineCheckPeriodSec : Nat := 1

/-- Validity check `seqNumIsValid(seqNum uint32) bool`: true iff
`seqNum < maxSeqNum`. -/
def seqNumIsValid (seqNum : Nat) : Bool :=
  if seqNum < maxSeqNum then true else false

/-- Successor sequence `nextSeqNum(seqNum uint32) uint32`: add `queueSize`
(uint32 wrap modelled by `% 2^32`), subtract `maxSeqNum` when the sum leaves
the sequence space. -/
def nextSeqNum (seqNum : Nat) : Nat :=
  let s := (seqNum + queueSize) % uint32Mod
  if s < maxSeqNum then s else s - maxSeqNum

/-- Error taxonomy of the connection (the Go code uses `bindings.NewError`
codes and `fmt.Errorf` protocol errors). -/
inductive Err where
  | timeout
  | canceled
  | invalidArgument
  | invalidMagic
  | unsupportedVersion
  | invalidSeq
  | network
  deriving DecidableEq, Repr

/-- One element of `requests [queueSize]requestInfo`: the atomically updated
fields `seqNum` and `deadline` (the channels are modelled as events). -/
structure SlotState where
  seqNum : Nat
  deadline : Nat
  deriving DecidableEq, Repr

/-- A dynamically typed RPC argument (`args ...interface{}`).  The supported
dynamic types each get a constructor; `unsupported` stands for a value of any
other dynamic type (e.g. a `float64`), which the `switch` in `rpcCall` has no
case for. -/
inductive RPCArg where
  | ofBool : Bool → RPCArg
  | ofInt : Int → RPCArg
  | ofInt32 : Int → RPCArg
  | ofInt64 : Int → RPCArg
  | ofString : String → RPCArg
  | ofBytes : List Nat → RPCArg
  | ofInt32Arr : List Int → RPCArg
  | unsupported : RPCArg
  deriving DecidableEq, Repr

/-- A tagged value written into the frame by the `rpcEncoder` methods. -/
inductive EncodedArg where
  | boolArg : Bool → EncodedArg
  | intArg : Int → EncodedArg
  | int64Arg : Int → EncodedArg
  | stringArg : String → EncodedArg
  | bytesArg : List Nat → EncodedArg
  | int32ArrArg : List Int → EncodedArg
  deriving DecidableEq, Repr

/-- One iteration of the `switch t := a.(type)` in `rpcCall`: each supported
dynamic type is encoded by the matching encoder method (`int32` goes through
`intArg(int(t))`); a value of any other type falls through the switch and is
encoded as nothing. -/
def encodeArg : RPCArg → Option EncodedArg
  | .ofBool t => some (.boolArg t)
  | .ofInt t => some (.intArg t)
  | .ofInt32 t => some (.intArg t)
  | .ofInt64 t => some (.int64Arg t)
  | .ofString t => some (.stringArg t)
  | .ofBytes t => some (.bytesArg t)
  | .ofInt32Arr t => some (.int32ArrArg t)
  | .unsupported => none

/-- The `for _, a := range args` loop of `rpcCall`. -/
def encodeArgs (args : List RPCArg) : List EncodedArg :=
  args.filterMap encodeArg

/-- The frame handed to the writer by `c.write(in.ser.Bytes())`: command,
sequence, encoded argument list, and the trailing exec-timeout args chunk. -/
structure Frame where
  cmd : Nat
  seq : Nat
  args : List EncodedArg
  execTimeout : Int
  deriving DecidableEq, Repr

/-- A delivery a blocked caller can receive in the `select` of `rpcCall`:
a reply `bufPtr{rseq, buf}` on the slot's `repl` channel, the closing of
`errCh` (carrying the stored `c.err`), or a sequence number on the slot's
`timeoutCh`. -/
inductive WaitEvent where
  | reply : Nat → Nat → WaitEvent
  | errClosed : Err → WaitEvent
  | timeoutSig : Nat → WaitEvent
  deriving DecidableEq, Repr

/-- The `for_loop` `select` of `rpcCall`, linearised over the sequence of
channel deliveries: a reply is accepted only when `bufPtr.rseq == seq`, a
timeout only when `timeoutSeq == seq`; `errCh` always resolves with the
stored error; anything else is ignored and the loop keeps waiting
(`none` = still blocked). -/
def waitLoop (seq : Nat) : List WaitEvent → Option (Except Err Nat)
  | [] => none
  | .reply rseq buf :: rest =>
      if rseq = seq then some (.ok buf) else waitLoop seq rest
  | .errClosed e :: _ => some (.error e)
  | .timeoutSig tseq :: rest =>
      if tseq = seq then some (.error .timeout) else waitLoop seq rest

/-- The mutable connection state touched by `rpcCall`, the reader and the
ticker: the available-sequence queue `seqs` (front = next received), the
slot table `requests`, the frames handed to the writer, and the ticker's
coarse clock `now`. -/
structure ConnState where
  seqs : List Nat
  requests : List SlotState
  written : List Frame
  now : Nat
  deriving DecidableEq, Repr

/-- Connection state after `newConnection`'s initialisation loop: `seqs`
holds `0 .. queueSize-1`, every slot is Go-zero-valued, and the ticker has
just stored `now = 0`. -/
def initialConn : ConnState :=
  { seqs := List.range queueSize
    requests := List.replicate queueSize { seqNum := 0, deadline := 0 }
    written := []
    now := 0 }

/-- Lines 334-336 of `rpcCall`: store `now + netTimeout` (uint32 add) into
the slot's deadline only when `netTimeout != 0`. -/
def storeDeadline (netTimeout now : Nat) (s : SlotState) : SlotState :=
  if netTimeout ≠ 0 then { s with deadline := (now + netTimeout) % uint32Mod } else s

/-- The context-deadline check of `rpcCall`: `ctxRemainingMs` is
`execDeadline.Sub(time.Now()) / time.Millisecond` when the context has a
deadline (`none` otherwise); the call is rejected when it is `<= 0`. -/
def ctxCanceled (ctxRemainingMs : Option Int) : Bool :=
  match ctxRemainingMs with
  | some t => t ≤ 0
  | none => false

/-- The `execTimeout` value appended in the secondary args chunk (0 when the
context carries no deadline). -/
def execTimeoutOf (ctxRemainingMs : Option Int) : Int :=
  match ctxRemainingMs with
  | some t => t
  | none => 0

/-- Outcome of a synchronous `rpcCall`. -/
inductive CallOutcome where
  | blocked
  | resolvedOk : Nat → CallOutcome
  | resolvedErr : Err → CallOutcome
  deriving DecidableEq, Repr

/-- The synchronous call `rpcCall`: dequeue a sequence from `seqs`
(`blocked` when the pipeline is saturated); reject with `Canceled` when the
caller's context deadline has already expired — note the dequeued sequence is
not pushed back on this path; otherwise store the deadline (if any) and the
sequence into the slot, hand the encoded frame to the writer, and run the
`select` loop over `events`.  On any resolution the slot's sequence is reset
to the idle sentinel `maxSeqNum` and `nextSeqNum seq` is pushed onto `seqs`. -/
def rpcCall (st : ConnState) (cmd netTimeout : Nat) (ctxRemainingMs : Option Int)
    (args : List RPCArg) (events : List WaitEvent) : CallOutcome × ConnState :=
  match st.seqs with
  | [] => (.blocked, st)
  | seq :: restSeqs =>
    if ctxCanceled ctxRemainingMs then
      (.resolvedErr .canceled, { st with seqs := restSeqs })
    else
      let reqID := seq % queueSize
      let slot0 := st.requests.getD reqID { seqNum := 0, deadline := 0 }
      let slot1 := storeDeadline netTimeout st.now slot0
      let slot2 := { slot1 with seqNum := seq }
      let frame : Frame :=
        { cmd := cmd, seq := seq, args := encodeArgs args
          execTimeout := execTimeoutOf ctxRemainingMs }
      let stSent : ConnState :=
        { st with seqs := restSeqs
                  requests := st.requests.set reqID slot2
                  written := st.written ++ [frame] }
      match waitLoop seq events with
      | none => (.blocked, stSent)
      | some r =>
        let stDone : ConnState :=
          { stSent with
              requests := stSent.requests.set reqID { slot2 with seqNum := maxSeqNum }
              seqs := restSeqs ++ [nextSeqNum seq] }
        match r with
        | .ok buf => (.resolvedOk buf, stDone)
        | .error e => (.resolvedErr e, stDone)

/-- The ticker's per-slot scan body (`deadlineTicker`, inner `for`): skip the
slot when its sequence is not valid (idle sentinel); when the deadline is
non-zero and `now >= deadline`, zero the deadline and send the slot's current
sequence on its timeout channel (returned as `some seqNum`). -/
def tickSlot (now : Nat) (s : SlotState) : SlotState × Option Nat :=
  if seqNumIsValid s.seqNum then
    if s.deadline ≠ 0 ∧ now ≥ s.deadline then
      ({ s with deadline := 0 }, some s.seqNum)
    else (s, none)
  else (s, none)

/-- One full tick of `deadlineTicker`: increment `now` by
`deadlineCheckPeriodSec` (uint32 add) and scan every slot in order,
collecting `(slot index, sequence)` for every timeout signal sent. -/
def tickConn (st : ConnState) : ConnState × List (Nat × Nat) :=
  let now := (st.now + deadlineCheckPeriodSec) % uint32Mod
  let scanned := st.requests.map (tickSlot now)
  ({ st with now := now, requests := scanned.map Prod.fst },
   (scanned.enum.filterMap fun p =>
      match p.2.2 with
      | some sq => some (p.1, sq)
      | none => none))

/-- A decoded 16-byte frame header: magic, version, payload size, sequence
(the reserved u16 is read and discarded by `readReply`). -/
structure Header where
  magic : Nat
  version : Nat
  size : Nat
  rseq : Nat
  deriving DecidableEq, Repr

/-- What `readReply` does after a complete header read: fail with a protocol
error, drain and discard `n` payload bytes, or read the payload and deliver
`(rseq, buffer)` on slot `reqID`'s reply channel. -/
inductive ReadAction where
  | protoError : Err → ReadAction
  | discard : Nat → ReadAction
  | deliver : Nat → Nat → Nat → ReadAction
  deriving DecidableEq, Repr

/-- The reader body `readReply` after `io.ReadFull` of the header: check the magic, then the
version, then the sequence validity; look the slot up by `rseq % queueSize`
and compare its current sequence with `rseq` — on mismatch drain `size` bytes
to `ioutil.Discard` and return no error, on match read the payload and send
it on the slot's reply channel. -/
def readReply (requests : List SlotState) (h : Header) : ReadAction :=
  if h.magic ≠ cprotoMagic then .protoError .invalidMagic
  else if h.version < cprotoMinCompatVersion then .protoError .unsupportedVersion
  else if ¬ seqNumIsValid h.rseq then .protoError .invalidSeq
  else
    let reqID := h.rseq % queueSize
    if (requests.getD reqID { seqNum := 0, deadline := 0 }).seqNum ≠ h.rseq then
      .discard h.size
    else
      .deliver reqID h.rseq h.size

/-- The failure-related state of a connection: the stored `c.err`, whether
`c.conn` is non-nil, and close counters for the socket and `errCh` (a close
is a counter increment; `errChClosed` mirrors whether a receive on `errCh`
would fire). -/
structure FailState where
  err : Option Err
  hasConn : Bool
  sockCloseCount : Nat
  errChClosed : Bool
  errChCloseCount : Nat
  deriving DecidableEq, Repr

/-- The failure transition `onError(err)`: under the lock, only when `c.err == nil`: store the
error, close the socket when `c.conn != nil`, and close `errCh` unless a
receive on it already succeeds (the `select`/`default` guard).  Otherwise do
nothing. -/
def onError (e : Err) (s : FailState) : FailState :=
  if s.err = none then
    { err := some e
      hasConn := s.hasConn
      sockCloseCount := if s.hasConn then s.sockCloseCount + 1 else s.sockCloseCount
      errChClosed := true
      errChCloseCount := if s.errChClosed then s.errChCloseCount else s.errChCloseCount + 1 }
  else s

/-- A pristine failure state: no stored error, live socket, open `errCh`,
nothing closed yet. -/
def fsPristine : FailState :=
  { err := none
    hasConn := true
    sockCloseCount := 0
    errChClosed := false
    errChCloseCount := 0 }

/-- A failure state already tripped by a network error. -/
def fsFailedNet : FailState :=
  { err := some .network
    hasConn := true
    sockCloseCount := 1
    errChClosed := true
    errChCloseCount := 1 }

/-- One iteration of `readLoop`: run `readReply`; on error call `onError`
with it (protocol errors are fatal to the connection), otherwise leave the
failure state untouched. -/
def readLoopStep (requests : List SlotState) (fs : FailState) (h : Header) :
    ReadAction × FailState :=
  match readReply requests h with
  | .protoError e => (.protoError e, onError e fs)
  | a => (a, fs)

/-- How `connect(timeout)` dials: `net.Dial` (no deadline) when the timeout
is zero, `net.DialTimeout` with `timeout` seconds otherwise. -/
inductive DialMode where
  | noDeadline
  | withTimeout : Nat → DialMode
  deriving DecidableEq, Repr

/-- The dial-mode selection at the top of `connect`. -/
def connectDialMode (timeout : Nat) : DialMode :=
  if timeout = 0 then .noDeadline else .withTimeout timeout

/-- The post-dial budget computation in `newConnection` (lines 121-128):
when the configured login timeout is non-zero, subtract the ticker-elapsed
seconds `now`; a non-positive remainder fails with `Timeout` via `onError`
before `login` is called; a zero login timeout is passed through unchanged
(wait indefinitely). -/
def loginTimeoutAfterDial (loginTimeout now : Nat) : Except Err Nat :=
  if loginTimeout ≠ 0 then
    if loginTimeout > now then .ok (loginTimeout - now)
    else .error .timeout
  else .ok loginTimeout

/-- Trace state: a first call on slot 0 with a 5-second network timeout,
answered by its reply before the deadline fires.  The released slot keeps
`deadline = 5` because only `seqNum` is reset on release. -/
def c3AfterFirst : ConnState :=
  (rpcCall initialConn 48 5 none [] [.reply 0 7]).2

/-- Trace state: 39 further answered calls with no network timeout, cycling
slots 1..39 so that sequence 40 reaches the front of the queue. -/
def c3Drained : ConnState :=
  (List.range 39).foldl
    (fun st i => (rpcCall st 48 0 none [] [.reply (i + 1) 0]).2) c3AfterFirst

/-- Trace state: first quiet ticker tick (now = 1, all slots idle). -/
def c3Tick1 : ConnState × List (Nat × Nat) := tickConn c3Drained

/-- Trace state: second quiet ticker tick (now = 2). -/
def c3Tick2 : ConnState × List (Nat × Nat) := tickConn c3Tick1.1

/-- Trace state: a new call on slot 0 (sequence 40) submitted with
`netTimeout = 0`, still blocked in its select. -/
def c3Submitted : ConnState := (rpcCall c3Tick2.1 48 0 none [] []).2

/-- Trace state: ticker tick at now = 3 while the no-deadline call waits. -/
def c3Tick3 : ConnState × List (Nat × Nat) := tickConn c3Submitted

/-- Trace state: ticker tick at now = 4. -/
def c3Tick4 : ConnState × List (Nat × Nat) := tickConn c3Tick3.1

/-- Trace state: ticker tick at now = 5, when the stale deadline fires. -/
def c3Tick5 : ConnState × List (Nat × Nat) := tickConn c3Tick4.1

theorem nextSeqNum_lt (s : Nat) (hs : s < maxSeqNum) : nextSeqNum s < maxSeqNum := by
  unfold nextSeqNum
  simp only [uint32Mod, maxSeqNum, queueSize] at *
  have h1 : s + 40 < 4294967296 := by omega
  rw [Nat.mod_eq_of_lt h1]
  split <;> omega

theorem nextSeqNum_eq_mod (s : Nat) (hs : s < maxSeqNum) :
    nextSeqNum s = (s + queueSize) % maxSeqNum := by
  unfold nextSeqNum
  simp only [uint32Mod, maxSeqNum, queueSize] at *
  have h1 : s + 40 < 4294967296 := by omega
  rw [Nat.mod_eq_of_lt h1]
  split
  · rw [Nat.mod_eq_of_lt]; omega
  · rw [Nat.mod_eq_sub_mod (by omega), Nat.mod_eq_of_lt (by omega)]

theorem nextSeqNum_same_slot (s : Nat) (hs : s < maxSeqNum) :
    nextSeqNum s % queueSize = s % queueSize := by
  rw [nextSeqNum_eq_mod s hs]
  have hdvd : queueSize ∣ maxSeqNum := ⟨10000000, rfl⟩
  rw [Nat.mod_mod_of_dvd _ hdvd, Nat.add_mod_right]

theorem nextSeqNum_ne (s : Nat) (hs : s < maxSeqNum) : nextSeqNum s ≠ s := by
  unfold nextSeqNum
  simp only [uint32Mod, maxSeqNum, queueSize] at *
  have h1 : s + 40 < 4294967296 := by omega
  rw [Nat.mod_eq_of_lt h1]
  split <;> omega

theorem seqNumIsValid_iff (s : Nat) : seqNumIsValid s = true ↔ s < maxSeqNum := by
  unfold seqNumIsValid
  split <;> simp_all

theorem rpcCall_resolved_seqs (st : ConnState) (cmd netTimeout : Nat)
    (ctx : Option Int) (args : List RPCArg) (events : List WaitEvent)
    (s : Nat) (rest : List Nat) (r : Except Err Nat)
    (hseq : st.seqs = s :: rest) (hctx : ctxCanceled ctx = false)
    (hres : waitLoop s events = some r) :
    (rpcCall st cmd netTimeout ctx args events).2.seqs = rest ++ [nextSeqNum s] := by
  unfold rpcCall
  rw [hseq, hctx]
  simp only [Bool.false_eq_true, if_false, hres]
  cases r <;> rfl

/-- C4: for a sequence `s` in `[0, maxSeqNum)`, the successor computed on
slot release is `(s + queueSize) % maxSeqNum`, lies in `[0, maxSeqNum)`,
keeps the slot index `s % queueSize`, and differs from `s`; and when a call
holding sequence `s` resolves, exactly this successor is pushed onto the
available-sequence queue. -/
theorem C4_next_sequence (s : Nat) (st : ConnState) (cmd netTimeout : Nat)
    (ctx : Option Int) (args : List RPCArg) (events : List WaitEvent)
    (rest : List Nat) (r : Except Err Nat)
    (hs : s < maxSeqNum) (hseq : st.seqs = s :: rest)
    (hctx : ctxCanceled ctx = false) (hres : waitLoop s events = some r) :
    nextSeqNum s = (s + queueSize) % maxSeqNum ∧
    nextSeqNum s < maxSeqNum ∧
    nextSeqNum s % queueSize = s % queueSize ∧
    nextSeqNum s ≠ s ∧
    (rpcCall st cmd netTimeout ctx args events).2.seqs = rest ++ [nextSeqNum s] :=
  ⟨nextSeqNum_eq_mod s hs, nextSeqNum_lt s hs, nextSeqNum_same_slot s hs,
   nextSeqNum_ne s hs,
   rpcCall_resolved_seqs st cmd netTimeout ctx args events s rest r hseq hctx hres⟩

/-- Witness for C4 at sequence 0 on the freshly initialised connection. -/
theorem C4_next_sequence_witness :
    nextSeqNum 0 = (0 + queueSize) % maxSeqNum ∧
    nextSeqNum 0 < maxSeqNum ∧
    nextSeqNum 0 % queueSize = 0 % queueSize ∧
    nextSeqNum 0 ≠ 0 ∧
    (rpcCall initialConn 48 0 none [] [.reply 0 7]).2.seqs
      = (List.range queueSize).tail ++ [nextSeqNum 0] :=
  C4_next_sequence 0 initialConn 48 0 none [] [.reply 0 7]
    ((List.range queueSize).tail) (.ok 7) (by decide) (by decide) rfl rfl

theorem waitLoop_resolution (seq : Nat) :
    ∀ (events : List WaitEvent) (r : Except Err Nat),
      waitLoop seq events = some r →
      (∃ b, r = .ok b ∧ WaitEvent.reply seq b ∈ events) ∨
      (∃ e, r = .error e ∧ WaitEvent.errClosed e ∈ events) ∨
      (r = Except.error Err.timeout ∧ WaitEvent.timeoutSig seq ∈ events)
  | [], r => by intro h; exact absurd h (by simp [waitLoop])
  | .reply rseq buf :: rest, r => by
      intro h
      unfold waitLoop at h
      by_cases hr : rseq = seq
      · subst hr
        rw [if_pos rfl] at h
        exact Or.inl ⟨buf, by simpa using h.symm, List.mem_cons_self _ _⟩
      · rw [if_neg hr] at h
        rcases waitLoop_resolution seq rest r h with ⟨b, hb, hm⟩ | ⟨e, he, hm⟩ | ⟨he, hm⟩
        · exact Or.inl ⟨b, hb, List.mem_cons_of_mem _ hm⟩
        · exact Or.inr (Or.inl ⟨e, he, List.mem_cons_of_mem _ hm⟩)
        · exact Or.inr (Or.inr ⟨he, List.mem_cons_of_mem _ hm⟩)
  | .errClosed e :: rest, r => by
      intro h
      unfold waitLoop at h
      exact Or.inr (Or.inl ⟨e, by simpa using h.symm, List.mem_cons_self _ _⟩)
  | .timeoutSig tseq :: rest, r => by
      intro h
      unfold waitLoop at h
      by_cases ht : tseq = seq
      · subst ht
        rw [if_pos rfl] at h
        exact Or.inr (Or.inr ⟨by simpa using h.symm, List.mem_cons_self _ _⟩)
      · rw [if_neg ht] at h
        rcases waitLoop_resolution seq rest r h with ⟨b, hb, hm⟩ | ⟨e2, he, hm⟩ | ⟨he, hm⟩
        · exact Or.inl ⟨b, hb, List.mem_cons_of_mem _ hm⟩
        · exact Or.inr (Or.inl ⟨e2, he, List.mem_cons_of_mem _ hm⟩)
        · exact Or.inr (Or.inr ⟨he, List.mem_cons_of_mem _ hm⟩)

/-- C7: a waiter resolves only through a reply carrying its own sequence, a
timeout signal carrying its own sequence, or the closing of the failure
channel delivering the stored error; a reply or a timeout signal carrying
any other sequence is skipped and the waiter keeps waiting. -/
theorem C7_waiter_resolution (seq rseq tseq buf : Nat)
    (rest events : List WaitEvent) (r : Except Err Nat)
    (hr : rseq ≠ seq) (ht : tseq ≠ seq) (hres : waitLoop seq events = some r) :
    waitLoop seq (.reply rseq buf :: rest) = waitLoop seq rest ∧
    waitLoop seq (.timeoutSig tseq :: rest) = waitLoop seq rest ∧
    ((∃ b, r = .ok b ∧ WaitEvent.reply seq b ∈ events) ∨
     (∃ e, r = .error e ∧ WaitEvent.errClosed e ∈ events) ∨
     (r = Except.error Err.timeout ∧ WaitEvent.timeoutSig seq ∈ events)) :=
  ⟨by simp only [waitLoop, if_neg hr],
   by simp only [waitLoop, if_neg ht],
   waitLoop_resolution seq events r hres⟩

/-- Witness for C7: the waiter on sequence 1 skips a stale reply and a stale
timeout, then accepts the failure broadcast carrying the stored error. -/
theorem C7_waiter_resolution_witness :
    waitLoop 1 [.reply 0 5] = waitLoop 1 [] ∧
    waitLoop 1 [.timeoutSig 2] = waitLoop 1 [] ∧
    ((∃ b, (Except.error Err.network : Except Err Nat) = .ok b ∧
        WaitEvent.reply 1 b ∈ [WaitEvent.reply 0 5, WaitEvent.errClosed Err.network]) ∨
     (∃ e, (Except.error Err.network : Except Err Nat) = .error e ∧
        WaitEvent.errClosed e ∈ [WaitEvent.reply 0 5, WaitEvent.errClosed Err.network]) ∨
     ((Except.error Err.network : Except Err Nat) = Except.error Err.timeout ∧
        WaitEvent.timeoutSig 1 ∈ [WaitEvent.reply 0 5, WaitEvent.errClosed Err.network])) :=
  C7_waiter_resolution 1 0 2 5 [] [.reply 0 5, .errClosed .network]
    (.error .network) (by decide) (by decide) rfl

/-- C1 counterexample: a call whose argument list contains a value of an
unsupported kind does not fail with `InvalidArgument`; the frame (with the
unsupported value silently dropped) is handed to the writer and the call
succeeds. -/
theorem C1_no_invalid_argument_error :
    (rpcCall initialConn 48 0 none [RPCArg.unsupported, RPCArg.ofBool true]
        [.reply 0 3]).1 = CallOutcome.resolvedOk 3 ∧
    (rpcCall initialConn 48 0 none [RPCArg.unsupported, RPCArg.ofBool true]
        [.reply 0 3]).2.written
      = [{ cmd := 48, seq := 0, args := [EncodedArg.boolArg true], execTimeout := 0 }] ∧
    (rpcCall initialConn 48 0 none [RPCArg.unsupported, RPCArg.ofBool true]
        [.reply 0 3]).1 ≠ CallOutcome.resolvedErr Err.invalidArgument := by
  refine ⟨by decide, by decide, by decide⟩

/-- C1 (amended): an argument value of an unsupported kind is silently
skipped by the encoding switch — it contributes nothing to the encoded
argument list and the whole call behaves exactly as if the value had been
omitted; no error is raised on its account. -/
theorem C1_unsupported_skipped (st : ConnState) (cmd netTimeout : Nat)
    (ctx : Option Int) (pre post : List RPCArg) (events : List WaitEvent) :
    encodeArg RPCArg.unsupported = none ∧
    encodeArgs (pre ++ RPCArg.unsupported :: post) = encodeArgs (pre ++ post) ∧
    rpcCall st cmd netTimeout ctx (pre ++ RPCArg.unsupported :: post) events
      = rpcCall st cmd netTimeout ctx (pre ++ post) events := by
  have h : encodeArgs (pre ++ RPCArg.unsupported :: post) = encodeArgs (pre ++ post) := by
    simp [encodeArgs, List.filterMap_append, List.filterMap_cons, encodeArg]
  exact ⟨rfl, h, by simp only [rpcCall, h]⟩

/-- C2: submitting on a fresh connection with an already-expired caller
context resolves with `Canceled`; no frame reaches the writer and no slot is
touched — but the dequeued sequence 0 is never pushed back: the queue
shrinks from `queueSize` to `queueSize - 1` entries and `nextSeqNum 0` is
not among them, so one pipeline slot is permanently lost. -/
theorem C2_canceled_slot_not_reclaimed :
    (rpcCall initialConn 48 1 (some 0) [] []).1
        = CallOutcome.resolvedErr Err.canceled ∧
    (rpcCall initialConn 48 1 (some 0) [] []).2.written = initialConn.written ∧
    (rpcCall initialConn 48 1 (some 0) [] []).2.requests = initialConn.requests ∧
    (rpcCall initialConn 48 1 (some 0) [] []).2.seqs = initialConn.seqs.tail ∧
    (rpcCall initialConn 48 1 (some 0) [] []).2.seqs.length + 1 = queueSize ∧
    ¬ nextSeqNum 0 ∈ (rpcCall initialConn 48 1 (some 0) [] []).2.seqs ∧
    ¬ 0 ∈ (rpcCall initialConn 48 1 (some 0) [] []).2.seqs := by
  refine ⟨by decide, by decide, by decide, by decide, by decide, by decide, by decide⟩

/-- C3: a reachable trace on which a request submitted with per-request
deadline 0 resolves with `Timeout`.  The first occupant of slot 0 used a
5-second deadline and was answered before it fired, leaving `deadline = 5`
in the slot; after two quiet ticks the next occupant (sequence 40) is
submitted with `netTimeout = 0`, inherits the stale deadline, and at tick 5
the ticker fires a timeout signal carrying sequence 40 — which that
waiter accepts. -/
theorem C3_zero_deadline_times_out :
    c3Tick1.2 = [] ∧ c3Tick2.2 = [] ∧
    (rpcCall c3Tick2.1 48 0 none [] []).1 = CallOutcome.blocked ∧
    c3Submitted.requests.getD 0 { seqNum := 0, deadline := 0 }
      = { seqNum := 40, deadline := 5 } ∧
    c3Tick3.2 = [] ∧ c3Tick4.2 = [] ∧ c3Tick5.2 = [(0, 40)] ∧
    (rpcCall c3Tick2.1 48 0 none [] [.timeoutSig 40]).1
      = CallOutcome.resolvedErr Err.timeout := by
  refine ⟨by decide, by decide, by decide, by decide, by decide, by decide,
    by decide, by decide⟩

/-- C5: a header that passes the magic, version and sequence checks but whose
sequence differs from the current sequence of slot `rseq % queueSize` makes
the reader drain exactly `size` payload bytes and discard them: nothing is
delivered, no error is returned, and the failure state is untouched. -/
theorem C5_stale_reply_drained (requests : List SlotState) (h : Header) (fs : FailState)
    (hm : h.magic = cprotoMagic) (hv : cprotoMinCompatVersion ≤ h.version)
    (hs : h.rseq < maxSeqNum)
    (hne : (requests.getD (h.rseq % queueSize) { seqNum := 0, deadline := 0 }).seqNum
        ≠ h.rseq) :
    readReply requests h = .discard h.size ∧
    readLoopStep requests fs h = (.discard h.size, fs) := by
  have hvalid : seqNumIsValid h.rseq = true := (seqNumIsValid_iff _).mpr hs
  have h1 : readReply requests h = .discard h.size := by
    rw [List.getD_eq_getElem?_getD] at hne
    simp [readReply, hm, Nat.not_lt.mpr hv, hvalid, hne]
  exact ⟨h1, by simp only [readLoopStep, h1]⟩

/-- Witness for C5: a well-formed header for sequence 5 on the fresh
connection (slot 5 holds sequence 0) is drained and dropped. -/
theorem C5_stale_reply_drained_witness :
    readReply initialConn.requests { magic := cprotoMagic, version := 258, size := 10, rseq := 5 }
      = .discard 10 ∧
    readLoopStep initialConn.requests fsPristine
      { magic := cprotoMagic, version := 258, size := 10, rseq := 5 }
      = (.discard 10, fsPristine) :=
  C5_stale_reply_drained initialConn.requests
    { magic := cprotoMagic, version := 258, size := 10, rseq := 5 }
    fsPristine rfl (by decide) (by decide) (by decide)

/-- C6: an inbound header is rejected with a protocol error iff its magic
differs from `cprotoMagic`, or its version is below
`cprotoMinCompatVersion`, or its sequence is outside `[0, maxSeqNum)`; the
magic is checked first, then the version, then the sequence; a header
passing all three checks is never rejected; and a rejection is fatal —
`readLoop` hands the error to `onError`, which stores it and closes the
failure channel. -/
theorem C6_header_validation (requests : List SlotState) (h : Header) (fs : FailState)
    (hfs : fs.err = none) :
    ((∃ e, readReply requests h = .protoError e) ↔
      (h.magic ≠ cprotoMagic ∨ h.version < cprotoMinCompatVersion ∨
        ¬ h.rseq < maxSeqNum)) ∧
    (h.magic ≠ cprotoMagic → readReply requests h = .protoError .invalidMagic) ∧
    (h.magic = cprotoMagic → h.version < cprotoMinCompatVersion →
      readReply requests h = .protoError .unsupportedVersion) ∧
    (h.magic = cprotoMagic → ¬ h.version < cprotoMinCompatVersion →
      ¬ h.rseq < maxSeqNum → readReply requests h = .protoError .invalidSeq) ∧
    (∀ e, readReply requests h = .protoError e →
      (readLoopStep requests fs h).2.err = some e ∧
      (readLoopStep requests fs h).2.errChClosed = true) := by
  have hA : h.magic ≠ cprotoMagic → readReply requests h = .protoError .invalidMagic := by
    intro hm; simp [readReply, hm]
  have hB : h.magic = cprotoMagic → h.version < cprotoMinCompatVersion →
      readReply requests h = .protoError .unsupportedVersion := by
    intro hm hv; simp [readReply, hm, hv]
  have hC : h.magic = cprotoMagic → ¬ h.version < cprotoMinCompatVersion →
      ¬ h.rseq < maxSeqNum → readReply requests h = .protoError .invalidSeq := by
    intro hm hv hs
    have hinv : seqNumIsValid h.rseq = false := by simp [seqNumIsValid, hs]
    simp [readReply, hm, hv, hinv]
  refine ⟨⟨?_, ?_⟩, hA, hB, hC, ?_⟩
  · rintro ⟨e, he⟩
    by_contra hno
    push_neg at hno
    obtain ⟨hm, hv, hs⟩ := hno
    have hvalid : seqNumIsValid h.rseq = true := (seqNumIsValid_iff _).mpr hs
    by_cases hmm :
        ((requests[h.rseq % queueSize]?).getD { seqNum := 0, deadline := 0 }).seqNum = h.rseq
    · have : readReply requests h = .deliver (h.rseq % queueSize) h.rseq h.size := by
        simp [readReply, hm, hv, hvalid, hmm]
      rw [he] at this
      exact ReadAction.noConfusion this
    · have : readReply requests h = .discard h.size := by
        simp [readReply, hm, hv, hvalid, hmm]
      rw [he] at this
      exact ReadAction.noConfusion this
  · rintro (hm | hv | hs)
    · exact ⟨.invalidMagic, hA hm⟩
    · by_cases hm : h.magic = cprotoMagic
      · exact ⟨.unsupportedVersion, hB hm hv⟩
      · exact ⟨.invalidMagic, hA hm⟩
    · by_cases hm : h.magic = cprotoMagic
      · by_cases hv : h.version < cprotoMinCompatVersion
        · exact ⟨.unsupportedVersion, hB hm hv⟩
        · exact ⟨.invalidSeq, hC hm hv hs⟩
      · exact ⟨.invalidMagic, hA hm⟩
  · intro e he
    simp only [readLoopStep, he]
    simp [onError, hfs]

/-- Witness for C6 at a header with a wrong magic on a pristine connection:
it is rejected as `invalidMagic` and the connection transitions to Failed. -/
theorem C6_header_validation_witness :
    ((∃ e, readReply [] { magic := 7, version := 258, size := 0, rseq := 0 }
        = .protoError e) ↔
      ((7 : Nat) ≠ cprotoMagic ∨ (258 : Nat) < cprotoMinCompatVersion ∨
        ¬ (0 : Nat) < maxSeqNum)) ∧
    ((7 : Nat) ≠ cprotoMagic →
      readReply [] { magic := 7, version := 258, size := 0, rseq := 0 }
        = .protoError .invalidMagic) ∧
    ((7 : Nat) = cprotoMagic → (258 : Nat) < cprotoMinCompatVersion →
      readReply [] { magic := 7, version := 258, size := 0, rseq := 0 }
        = .protoError .unsupportedVersion) ∧
    ((7 : Nat) = cprotoMagic → ¬ (258 : Nat) < cprotoMinCompatVersion →
      ¬ (0 : Nat) < maxSeqNum →
      readReply [] { magic := 7, version := 258, size := 0, rseq := 0 }
        = .protoError .invalidSeq) ∧
    (∀ e, readReply [] { magic := 7, version := 258, size := 0, rseq := 0 }
        = .protoError e →
      (readLoopStep [] fsPristine
        { magic := 7, version := 258, size := 0, rseq := 0 }).2.err = some e ∧
      (readLoopStep [] fsPristine
        { magic := 7, version := 258, size := 0, rseq := 0 }).2.errChClosed = true) :=
  C6_header_validation [] { magic := 7, version := 258, size := 0, rseq := 0 }
    fsPristine rfl

/-- C8: with login timeout 0 the dial carries no deadline and the login is
issued with timeout 0, which stores no slot deadline (wait indefinitely);
with a non-zero login timeout `T` the dial uses `T` seconds and, after it,
`now ≥ T` fails with `Timeout` before the login is sent while `now < T`
issues the login with exactly `T - now`. -/
theorem C8_login_timeout_budget (T now n : Nat) (s : SlotState) (hT : T ≠ 0) :
    (connectDialMode 0 = DialMode.noDeadline ∧
     loginTimeoutAfterDial 0 now = .ok 0 ∧
     storeDeadline 0 n s = s) ∧
    connectDialMode T = DialMode.withTimeout T ∧
    (now ≥ T → loginTimeoutAfterDial T now = .error .timeout) ∧
    (now < T → loginTimeoutAfterDial T now = .ok (T - now)) := by
  refine ⟨⟨rfl, by simp [loginTimeoutAfterDial], by simp [storeDeadline]⟩, ?_, ?_, ?_⟩
  · simp [connectDialMode, hT]
  · intro hge; simp [loginTimeoutAfterDial, hT, Nat.not_lt.mpr hge]
  · intro hlt; simp [loginTimeoutAfterDial, hT, hlt]

/-- Witness for C8 at `T = 5`, `now = 7`: the remainder is non-positive and
the connection fails with Timeout before the login is sent. -/
theorem C8_login_timeout_budget_witness :
    (connectDialMode 0 = DialMode.noDeadline ∧
     loginTimeoutAfterDial 0 7 = .ok 0 ∧
     storeDeadline 0 3 { seqNum := 1, deadline := 2 } = { seqNum := 1, deadline := 2 }) ∧
    connectDialMode 5 = DialMode.withTimeout 5 ∧
    (7 ≥ 5 → loginTimeoutAfterDial 5 7 = .error .timeout) ∧
    (7 < 5 → loginTimeoutAfterDial 5 7 = .ok (5 - 7)) :=
  C8_login_timeout_budget 5 7 3 { seqNum := 1, deadline := 2 } (by decide)

/-- C9: the first `onError` on a not-yet-failed connection stores the error,
closes the socket exactly once and closes the failure channel exactly once;
`onError` on an already-failed state (any error, any such state) is the
identity — in particular a second `onError` after the first changes
nothing. -/
theorem C9_onError_one_shot (e e2 : Err) (s s2 : FailState)
    (h1 : s.err = none) (h2 : s.errChClosed = false) (h3 : s.hasConn = true)
    (h4 : s2.err ≠ none) :
    (onError e s).err = some e ∧
    (onError e s).sockCloseCount = s.sockCloseCount + 1 ∧
    (onError e s).errChClosed = true ∧
    (onError e s).errChCloseCount = s.errChCloseCount + 1 ∧
    onError e2 s2 = s2 ∧
    onError e2 (onError e s) = onError e s := by
  simp [onError, h1, h2, h3, h4]

/-- Witness for C9: tripping a pristine connection with a network error,
then checking idempotence against an already-failed state. -/
theorem C9_onError_one_shot_witness :
    (onError .network fsPristine).err = some .network ∧
    (onError .network fsPristine).sockCloseCount = fsPristine.sockCloseCount + 1 ∧
    (onError .network fsPristine).errChClosed = true ∧
    (onError .network fsPristine).errChCloseCount = fsPristine.errChCloseCount + 1 ∧
    onError .timeout fsFailedNet = fsFailedNet ∧
    onError .timeout (onError .network fsPristine) = onError .network fsPristine :=
  C9_onError_one_shot .network .timeout fsPristine fsFailedNet
    rfl rfl rfl (by decide)

/-- C10: the idle sentinel `maxSeqNum` is itself an invalid sequence number,
so a header that passes sequence validation can never equal an idle slot's
sequence field: while the slot a header maps to holds the sentinel, the
reader never delivers a payload on any reply channel. -/
theorem C10_idle_sentinel_never_delivers (requests : List SlotState) (h : Header)
    (reqID rseq sz : Nat)
    (hidle : (requests.getD (h.rseq % queueSize) { seqNum := 0, deadline := 0 }).seqNum
        = maxSeqNum) :
    seqNumIsValid maxSeqNum = false ∧
    readReply requests h ≠ .deliver reqID rseq sz := by
  refine ⟨by decide, ?_⟩
  intro hcon
  unfold readReply at hcon
  split_ifs at hcon with hm hv hs <;>
    try exact ReadAction.noConfusion hcon
  simp only [] at hcon
  split_ifs at hcon with hmm
  have hval : h.rseq < maxSeqNum := (seqNumIsValid_iff h.rseq).mp hs
  have heq : (requests.getD (h.rseq % queueSize)
      { seqNum := 0, deadline := 0 }).seqNum = h.rseq := not_not.mp hmm
  rw [hidle] at heq
  omega

/-- Witness for C10: every slot idle at the sentinel; a well-formed header
for sequence 7 is not delivered. -/
theorem C10_idle_sentinel_never_delivers_witness :
    seqNumIsValid maxSeqNum = false ∧
    readReply (List.replicate queueSize { seqNum := maxSeqNum, deadline := 0 })
      { magic := cprotoMagic, version := 258, size := 3, rseq := 7 } ≠ .deliver 7 7 3 :=
  C10_idle_sentinel_never_delivers
    (List.replicate queueSize { seqNum := maxSeqNum, deadline := 0 })
    { magic := cprotoMagic, version := 258, size := 3, rseq := 7 } 7 7 3 (by decide)

end CProto
